import Mathlib

/-!
Shallow embedding of the resistance-aware prescribing and monitoring logic
of the `amr_core` application (models.py / views.py), together with theorems
settling the specification claims about it.

Database tables are modelled as Lean lists of records; Django query-set
operations (`filter`, `first`, `get`, `count`, `exclude`) become the
corresponding list operations.  Python `round(x, 1)` (banker's rounding)
is modelled exactly on rationals.
-/

namespace AMR

/-- One row of the `ResistanceRecord` table: `patient` and `antibiotic` are
the foreign-key ids, `result` is one of `"resistant" / "sensitive" /
"intermediate"` (models.py, `ResistanceRecord`). -/
structure ResistanceRecord where
  patient : Nat
  antibiotic : Nat
  result : String
deriving DecidableEq, Repr

/-- One row of the `Antibiotic` table, restricted to the fields the claims
need: the primary key and the comma-separated `bacteria_targeted` text
(models.py, `Antibiotic`). -/
structure AntibioticRec where
  id : Nat
  bacteria_targeted : String
deriving DecidableEq, Repr

/-- One row of the `Prescription` table, restricted to the fields the claims
need (models.py, `Prescription`): primary key, foreign keys, and `status`
(one of `"active" / "completed" / "cancelled"`). -/
structure PrescriptionRec where
  id : Nat
  patient : Nat
  antibiotic : Nat
  status : String
deriving DecidableEq, Repr

/-- One row of the `Feedback` table (models.py, `Feedback`): foreign keys and
the outcome classification `feedback` (one of `"recovered" / "no_improvement"
/ "side_effects" / "worsening" / "partial_recovery"`). -/
structure FeedbackRec where
  patient : Nat
  prescription : Nat
  feedback : String
deriving DecidableEq, Repr

/-- `Prescription.is_patient_resistant` (models.py lines 131-138):
`ResistanceRecord.objects.filter(patient=…, antibiotic=…,
result='resistant').first() is not None`. -/
def is_patient_resistant (db : List ResistanceRecord) (p a : Nat) : Bool :=
  ((db.filter fun r => r.patient == p && r.antibiotic == a && r.result == "resistant").head?).isSome

/-- Python's `round` to the nearest integer, ties to even (banker's
rounding), on exact rationals. -/
def round_half_even (q : ℚ) : ℤ :=
  let f : ℤ := ⌊q⌋
  let frac : ℚ := q - f
  if frac < 1/2 then f
  else if frac > 1/2 then f + 1
  else if f % 2 = 0 then f else f + 1

/-- Python's `round(x, 1)`: round to one decimal place. -/
def pyround1 (q : ℚ) : ℚ := (round_half_even (q * 10) : ℚ) / 10

/-- The three numeric scores and remaining fields of one
`PatientMonitoringDashboard` row (models.py, `PatientMonitoringDashboard`).
Dates are day numbers. -/
structure Dashboard where
  patient : Nat
  prescription : Nat
  treatment_start_date : Int
  expected_completion_date : Int
  last_assessment_date : Option Int
  next_assessment_due : Option Int
  treatment_status : String
  effectiveness_score : ℚ
  adherence_score : ℚ
  side_effects_score : ℚ
deriving DecidableEq, Repr

/-- `PatientMonitoringDashboard.get_overall_risk_score` (models.py lines
407-409): `round((side_effects_score + (10 - effectiveness_score) +
(10 - adherence_score)) / 3, 1)`. -/
def get_overall_risk_score (d : Dashboard) : ℚ :=
  pyround1 ((d.side_effects_score + (10 - d.effectiveness_score) + (10 - d.adherence_score)) / 3)

/-- A list's `head?` is `some` exactly when the list has a member. -/
theorem head?_isSome_iff_exists_mem {α : Type} (l : List α) :
    l.head?.isSome = true ↔ ∃ x, x ∈ l := by
  cases l <;> simp

/-- One `PatientAssessment` row, restricted to the fields used by the score
updater and the alert generator (models.py, `PatientAssessment`).  A blank /
null `side_effects_details` is modelled as `""`; dates are day numbers. -/
structure Assessment where
  symptom_improvement : String
  side_effects_experienced : Bool
  side_effects_details : String
  medication_adherence : String
  assessment_date : Int
  next_assessment_due : Option Int
deriving DecidableEq, Repr

/-- ASCII lower-casing of one character (Python `str.lower`, ASCII range). -/
def lower_char (c : Char) : Char :=
  if 65 ≤ c.toNat ∧ c.toNat ≤ 90 then Char.ofNat (c.toNat + 32) else c

/-- Lower-case a character list. -/
def lower_chars (l : List Char) : List Char := l.map lower_char

/-- Whether the first list is a prefix of the second. -/
def starts_with_chars : List Char → List Char → Bool
  | [], _ => true
  | _ :: _, [] => false
  | a :: as, b :: bs => a == b && starts_with_chars as bs

/-- Whether `needle` occurs as a contiguous sublist of `hay` (Python's
`needle in hay` on strings). -/
def contains_sub (hay needle : List Char) : Bool :=
  match hay with
  | [] => needle.isEmpty
  | _ :: rest => starts_with_chars needle hay || contains_sub rest needle

/-- Case-insensitive substring test: Python's `needle in hay` after
`.lower()`, and Django's `icontains` lookup. -/
def str_contains_ci (hay needle : String) : Bool :=
  contains_sub (lower_chars hay.data) (lower_chars needle.data)

/-- Python's `s.split(',')` on the character list: comma-separated chunks,
with the empty list splitting to one empty chunk. -/
def split_on_comma : List Char → List (List Char)
  | [] => [[]]
  | c :: cs =>
    if c = ',' then [] :: split_on_comma cs
    else
      match split_on_comma cs with
      | [] => [[c]]
      | w :: ws => (c :: w) :: ws

/-- Python whitespace (`str.strip` default set). -/
def is_space_char (c : Char) : Bool :=
  c == ' ' || c == '\t' || c == '\n' || c == '\r' || c == '\x0b' || c == '\x0c'

/-- Python's `s.strip()`: drop leading and trailing whitespace. -/
def strip_chars (l : List Char) : List Char :=
  ((l.dropWhile is_space_char).reverse.dropWhile is_space_char).reverse

/-- The score-update block of the `patient_assessment` handler (views.py
lines 556-585): overwrites the three scores from the assessment's categorical
answers and refreshes the two assessment dates.  The `if/elif/else` chains of
the source are the nested conditionals here. -/
def apply_assessment (d : Dashboard) (a : Assessment) : Dashboard :=
  { d with
    effectiveness_score :=
      if a.symptom_improvement == "significant" then 9
      else if a.symptom_improvement == "moderate" then 7
      else if a.symptom_improvement == "minimal" then 5
      else if a.symptom_improvement == "no_change" then 3
      else 1,
    adherence_score :=
      if a.medication_adherence == "excellent" then 10
      else if a.medication_adherence == "good" then 8
      else if a.medication_adherence == "fair" then 5
      else 2,
    side_effects_score := if a.side_effects_experienced then 7 else 1,
    last_assessment_date := some a.assessment_date,
    next_assessment_due := a.next_assessment_due }

/-- A created `MedicineEffectivenessAlert`, restricted to its type and
priority (models.py, `MedicineEffectivenessAlert`). -/
structure AlertRec where
  alert_type : String
  priority : String
deriving DecidableEq, Repr

/-- The keyword list of the severe-side-effects rule, exactly as written in
the source (views.py line 623), duplicate `"severe"` included. -/
def severe_keywords : List String :=
  ["severe", "serious", "severe", "allergic", "rash", "breathing"]

/-- `create_effectiveness_alerts` (views.py lines 604-661): the four
independent rules, in source order, each contributing one alert when its
condition holds.  Only the alert type and priority are tracked. -/
def create_effectiveness_alerts (a : Assessment) : List AlertRec :=
  (if a.symptom_improvement == "no_change" || a.symptom_improvement == "worsening" then
    [{ alert_type := "ineffective", priority := "high" }] else [])
  ++ (if a.side_effects_experienced && !(a.side_effects_details == "") &&
        severe_keywords.any (fun w => str_contains_ci a.side_effects_details w) then
    [{ alert_type := "side_effects", priority := "critical" }] else [])
  ++ (if a.medication_adherence == "fair" || a.medication_adherence == "poor" then
    [{ alert_type := "adherence", priority := "medium" }] else [])
  ++ (if (a.symptom_improvement == "no_change" || a.symptom_improvement == "worsening") &&
        a.medication_adherence == "excellent" then
    [{ alert_type := "resistance", priority := "high" }] else [])

/-- C1: `is_patient_resistant(P, A)` returns true iff a `ResistanceRecord`
for exactly the pair `(P, A)` with result `"resistant"` is in the store;
false in every other case (no record at all, or only `"sensitive"` /
`"intermediate"` records for the pair). -/
theorem c1_is_resistant_iff (db : List ResistanceRecord) (p a : Nat) :
    is_patient_resistant db p a = true ↔
      ∃ r ∈ db, r.patient = p ∧ r.antibiotic = a ∧ r.result = "resistant" := by
  unfold is_patient_resistant
  rw [head?_isSome_iff_exists_mem]
  constructor
  · rintro ⟨r, hr⟩
    rw [List.mem_filter] at hr
    have hb := hr.2
    simp only [Bool.and_eq_true, beq_iff_eq] at hb
    exact ⟨r, hr.1, hb.1.1, hb.1.2, hb.2⟩
  · rintro ⟨r, hr, h1, h2, h3⟩
    exact ⟨r, List.mem_filter.mpr ⟨hr, by simp [h1, h2, h3]⟩⟩

/-- C9: the overall risk score is the unclamped formula
`(side_effects + (10 − effectiveness) + (10 − adherence)) / 3` rounded to one
decimal place: for scores (effectiveness 9, adherence 10, side-effects 1) it
is 0.7, and an out-of-range effectiveness score of 12 propagates unclamped,
giving `(0 + (10 − 12) + 10)/3 = 8/3 ≈ 2.7`. -/
theorem c9_overall_risk_score :
    get_overall_risk_score
      { patient := 1, prescription := 1, treatment_start_date := 0,
        expected_completion_date := 7, last_assessment_date := none,
        next_assessment_due := none, treatment_status := "on_track",
        effectiveness_score := 9, adherence_score := 10, side_effects_score := 1 } = 7/10 ∧
    get_overall_risk_score
      { patient := 1, prescription := 1, treatment_start_date := 0,
        expected_completion_date := 7, last_assessment_date := none,
        next_assessment_due := none, treatment_status := "on_track",
        effectiveness_score := 12, adherence_score := 0, side_effects_score := 0 } = 27/10 := by
  constructor <;>
  · unfold get_overall_risk_score pyround1 round_half_even
    norm_num

/-- C6: for every assessment with symptom improvement `"worsening"`,
adherence `"excellent"` and no side effects experienced, the alert generator
creates exactly two alerts, in order: `"ineffective"` with priority `"high"`
and `"resistance"` with priority `"high"`; no `"adherence"` or
`"side_effects"` alert is created. -/
theorem c6_worsening_excellent_alerts (a : Assessment)
    (h1 : a.symptom_improvement = "worsening")
    (h2 : a.medication_adherence = "excellent")
    (h3 : a.side_effects_experienced = false) :
    create_effectiveness_alerts a =
      [{ alert_type := "ineffective", priority := "high" },
       { alert_type := "resistance", priority := "high" }] := by
  simp [create_effectiveness_alerts, h1, h2, h3]

/-- Concrete instantiation of `c6_worsening_excellent_alerts`. -/
theorem c6_witness :
    create_effectiveness_alerts
      { symptom_improvement := "worsening", side_effects_experienced := false,
        side_effects_details := "", medication_adherence := "excellent",
        assessment_date := 10, next_assessment_due := some 17 } =
      [{ alert_type := "ineffective", priority := "high" },
       { alert_type := "resistance", priority := "high" }] :=
  c6_worsening_excellent_alerts
    { symptom_improvement := "worsening", side_effects_experienced := false,
      side_effects_details := "", medication_adherence := "excellent",
      assessment_date := 10, next_assessment_due := some 17 } rfl rfl rfl

/-- C7: applying the same assessment twice leaves the dashboard exactly as
after one application — the categorical-to-numeric mapping overwrites the
three scores (and the two dates), so the update is idempotent. -/
theorem c7_apply_assessment_idempotent (d : Dashboard) (a : Assessment) :
    apply_assessment (apply_assessment d a) a = apply_assessment d a := rfl

/-- C8: the score update changes only the three scores and the two
assessment dates: the persisted `treatment_status` — and every other
dashboard field (keys, treatment start, expected completion) — is left
unchanged by `apply_assessment`. -/
theorem c8_apply_assessment_frame (d : Dashboard) (a : Assessment) :
    (apply_assessment d a).treatment_status = d.treatment_status ∧
    (apply_assessment d a).patient = d.patient ∧
    (apply_assessment d a).prescription = d.prescription ∧
    (apply_assessment d a).treatment_start_date = d.treatment_start_date ∧
    (apply_assessment d a).expected_completion_date = d.expected_completion_date :=
  ⟨rfl, rfl, rfl, rfl, rfl⟩

/-- The status side effect of the `patient_feedback` handler (views.py lines
269-272): after a feedback submission the prescription's status is set to
`"completed"` when the feedback is `"recovered"` or `"side_effects"`, and is
left untouched otherwise.  The handler performs no check of the current
status. -/
def submit_feedback_status (status fb : String) : String :=
  if fb == "recovered" || fb == "side_effects" then "completed" else status

/-- C3 counterexample: submitting `"recovered"` feedback for a prescription
whose status is `"cancelled"` moves its status to `"completed"` — the claimed
invariant that a cancelled prescription never becomes completed fails. -/
theorem c3_counterexample :
    submit_feedback_status "cancelled" "recovered" = "completed" := rfl

/-- C3 amended: the feedback side effect either sets the status to
`"completed"` (feedback `"recovered"` or `"side_effects"`, regardless of the
current status, including `"cancelled"`) or leaves it unchanged; in
particular a non-active prescription never becomes `"active"` again and a
completed one stays `"completed"`. -/
theorem c3_feedback_status_forward (status fb : String) :
    submit_feedback_status status fb = "completed" ∨
    submit_feedback_status status fb = status := by
  unfold submit_feedback_status
  by_cases h : (fb == "recovered" || fb == "side_effects") = true
  · left; simp [h]
  · right; simp [h]

/-- The storage effect of the `patient_feedback` handler (views.py lines
252-267): look for an existing `Feedback` row for the pair; if one exists the
form is bound to that instance and saving overwrites its outcome in place,
otherwise a fresh row is inserted. -/
def save_feedback : List FeedbackRec → Nat → Nat → String → List FeedbackRec
  | [], p, presc, fb => [{ patient := p, prescription := presc, feedback := fb }]
  | f :: fs, p, presc, fb =>
    if f.patient == p && f.prescription == presc then
      { f with feedback := fb } :: fs
    else
      f :: save_feedback fs p presc fb

/-- C4 counterexample: with an existing `"no_improvement"` feedback for the
pair (patient 1, prescription 1), submitting `"recovered"` for the same pair
is not rejected: the stored record's contents are replaced. -/
theorem c4_counterexample :
    save_feedback [{ patient := 1, prescription := 1, feedback := "no_improvement" }] 1 1 "recovered" =
      [{ patient := 1, prescription := 1, feedback := "recovered" }] := rfl

/-- Filtered-count bookkeeping for `save_feedback`: the number of rows for
the submitted pair becomes 1 when it was 0 (fresh insert) and is unchanged
otherwise (in-place update). -/
theorem save_feedback_count (fbs : List FeedbackRec) (p presc : Nat) (fb : String) :
    ((save_feedback fbs p presc fb).filter fun f => f.patient == p && f.prescription == presc).length =
      if ((fbs.filter fun f => f.patient == p && f.prescription == presc).length = 0) then 1
      else (fbs.filter fun f => f.patient == p && f.prescription == presc).length := by
  induction fbs with
  | nil => simp [save_feedback]
  | cons f fs ih =>
    by_cases h : (f.patient == p && f.prescription == presc) = true
    · simp only [save_feedback, h, if_pos]
      have h' : (({ f with feedback := fb } : FeedbackRec).patient == p &&
          ({ f with feedback := fb } : FeedbackRec).prescription == presc) = true := h
      simp [List.filter_cons, h, h']
    · simp only [save_feedback, h, if_neg, Bool.not_eq_true]
      simp [List.filter_cons, h, ih]

/-- C4 amended: a second submission for an existing (patient, prescription)
pair updates the stored `Feedback` in place rather than being rejected, so
the at-most-one invariant is preserved by the handler: if the store held at
most one row for the pair before a submission, it holds at most one after. -/
theorem c4_at_most_one_feedback (fbs : List FeedbackRec) (p presc : Nat) (fb : String)
    (h : ((fbs.filter fun f => f.patient == p && f.prescription == presc).length ≤ 1)) :
    ((save_feedback fbs p presc fb).filter fun f => f.patient == p && f.prescription == presc).length ≤ 1 := by
  rw [save_feedback_count]
  split
  · exact le_refl 1
  · exact h

/-- Concrete instantiation of `c4_at_most_one_feedback`. -/
theorem c4_witness :
    (((save_feedback [{ patient := 1, prescription := 1, feedback := "no_improvement" }] 1 1 "recovered").filter
      fun f => f.patient == 1 && f.prescription == 1).length ≤ 1) :=
  c4_at_most_one_feedback
    [{ patient := 1, prescription := 1, feedback := "no_improvement" }] 1 1 "recovered" (by decide)

/-- `Antibiotic.get_targeted_bacteria_list` (models.py lines 64-66):
`[b.strip() for b in self.bacteria_targeted.split(',') if b.strip()]`. -/
def get_targeted_bacteria_list (s : String) : List String :=
  (((split_on_comma s.data).map fun b => String.mk (strip_chars b)).filter
    fun b => !(b == ""))

/-- `Prescription.get_alternatives` (models.py lines 140-156).  Returns
`none` on the uncaught `IndexError` path: a bacteria text that is truthy
(non-empty) yet strips to an empty token list, where the source indexes
`targeted_bacteria[0]`.  Otherwise: antibiotics whose bacteria text contains
(case-insensitively) the first targeted bacterium, minus the original
antibiotic, minus every antibiotic the patient has a resistant record for. -/
def get_alternatives (abs : List AntibioticRec) (rrs : List ResistanceRecord)
    (patient : Nat) (antibiotic : AntibioticRec) : Option (List AntibioticRec) :=
  if antibiotic.bacteria_targeted == "" then some []
  else
    match get_targeted_bacteria_list antibiotic.bacteria_targeted with
    | [] => none
    | first :: _ =>
      let alternatives := abs.filter fun x =>
        str_contains_ci x.bacteria_targeted first && !(x.id == antibiotic.id)
      let resistant_antibiotic_ids :=
        (rrs.filter fun r => r.patient == patient && r.result == "resistant").map
          fun r => r.antibiotic
      some (alternatives.filter fun x => !(resistant_antibiotic_ids.contains x.id))

/-- C5: whenever `get_alternatives` returns a result list, that list never
contains the original antibiotic (by id) and never contains an antibiotic
the patient has a `"resistant"` record for (for any antibiotic, not only the
original one); and when the antibiotic's bacteria text is empty the result
is the empty list, not an error. -/
theorem c5_alternatives_sound (abs : List AntibioticRec) (rrs : List ResistanceRecord)
    (p : Nat) (ab : AntibioticRec) :
    (ab.bacteria_targeted = "" → get_alternatives abs rrs p ab = some []) ∧
    (∀ l, get_alternatives abs rrs p ab = some l →
      ∀ x ∈ l, x.id ≠ ab.id ∧
        ∀ r ∈ rrs, r.patient = p → r.result = "resistant" → r.antibiotic ≠ x.id) := by
  constructor
  · intro h
    simp [get_alternatives, h]
  · intro l hl x hx
    unfold get_alternatives at hl
    by_cases hempty : (ab.bacteria_targeted == "") = true
    · rw [if_pos hempty] at hl
      obtain rfl : ([] : List AntibioticRec) = l := Option.some.inj hl
      exact absurd hx (List.not_mem_nil x)
    · rw [if_neg hempty] at hl
      rcases htok : get_targeted_bacteria_list ab.bacteria_targeted with _ | ⟨first, rest⟩
      · rw [htok] at hl
        exact absurd hl (by simp)
      · rw [htok] at hl
        simp only [Option.some.injEq] at hl
        subst hl
        rw [List.mem_filter] at hx
        obtain ⟨hx1, hx2⟩ := hx
        rw [List.mem_filter] at hx1
        obtain ⟨_, hx1b⟩ := hx1
        constructor
        · intro hid
          rw [Bool.and_eq_true] at hx1b
          have := hx1b.2
          simp [hid] at this
        · intro r hr hrp hres hrid
          have hmem : x.id ∈ (rrs.filter fun r => r.patient == p && r.result == "resistant").map
              (fun r => r.antibiotic) := by
            rw [List.mem_map]
            exact ⟨r, List.mem_filter.mpr ⟨hr, by simp [hrp, hres]⟩, hrid⟩
          rw [Bool.not_eq_true', ← Bool.not_eq_true] at hx2
          exact hx2 (by simpa using hmem)

/-- Concrete instantiation of `c5_alternatives_sound`: empty bacteria text
gives the empty result, and a returned alternative differs from the original
antibiotic and is clear of the patient's resistant records. -/
theorem c5_witness :
    get_alternatives [] [] 1 { id := 1, bacteria_targeted := "" } = some [] ∧
    (({ id := 2, bacteria_targeted := "E. coli" } : AntibioticRec).id ≠ 1 ∧
      ∀ r ∈ ([] : List ResistanceRecord), r.patient = 5 → r.result = "resistant" →
        r.antibiotic ≠ ({ id := 2, bacteria_targeted := "E. coli" } : AntibioticRec).id) := by
  constructor
  · exact (c5_alternatives_sound [] [] 1 { id := 1, bacteria_targeted := "" }).1 rfl
  · refine (c5_alternatives_sound
      [{ id := 1, bacteria_targeted := "E. coli" }, { id := 2, bacteria_targeted := "E. coli" }]
      [] 5 { id := 1, bacteria_targeted := "E. coli" }).2
      [{ id := 2, bacteria_targeted := "E. coli" }] ?_ _ ?_
    · decide
    · simp

/-- `check_resistance_ajax` (views.py lines 412-437): a single-row
`ResistanceRecord.objects.get(patient, antibiotic, result='resistant')`.
`some true` when exactly one such row exists, `some false` on the caught
`DoesNotExist`, `none` on the uncaught `MultipleObjectsReturned`. -/
def check_resistance_ajax (db : List ResistanceRecord) (p a : Nat) : Option Bool :=
  match db.filter fun r => r.patient == p && r.antibiotic == a && r.result == "resistant" with
  | [] => some false
  | [_] => some true
  | _ => none

/-- C10: on every store satisfying the uniqueness invariant (no two rows for
the same (patient, antibiotic) pair), the AJAX endpoint and
`is_patient_resistant` return the same boolean — the endpoint never hits its
multiple-rows error path and agrees with the filter-based check. -/
theorem c10_ajax_agrees_with_model (db : List ResistanceRecord) (p a : Nat)
    (h : db.Pairwise fun r1 r2 => ¬(r1.patient = r2.patient ∧ r1.antibiotic = r2.antibiotic)) :
    check_resistance_ajax db p a = some (is_patient_resistant db p a) := by
  unfold check_resistance_ajax is_patient_resistant
  have hpw : (db.filter fun r =>
      r.patient == p && r.antibiotic == a && r.result == "resistant").Pairwise
      fun r1 r2 => ¬(r1.patient = r2.patient ∧ r1.antibiotic = r2.antibiotic) :=
    h.sublist (List.filter_sublist db)
  rcases hl : db.filter fun r => r.patient == p && r.antibiotic == a && r.result == "resistant"
    with _ | ⟨x, _ | ⟨y, rest⟩⟩
  · rw [hl]; rfl
  · rw [hl]; rfl
  · exfalso
    rw [hl] at hpw
    have hrel := (List.pairwise_cons.mp hpw).1 y (List.mem_cons_self y rest)
    have hx : x ∈ db.filter fun r => r.patient == p && r.antibiotic == a && r.result == "resistant" := by
      rw [hl]; exact List.mem_cons_self x (y :: rest)
    have hy : y ∈ db.filter fun r => r.patient == p && r.antibiotic == a && r.result == "resistant" := by
      rw [hl]; exact List.mem_cons_of_mem x (List.mem_cons_self y rest)
    have hxb := (List.mem_filter.mp hx).2
    have hyb := (List.mem_filter.mp hy).2
    simp only [Bool.and_eq_true, beq_iff_eq] at hxb hyb
    exact hrel ⟨hxb.1.1.trans hyb.1.1.symm, hxb.1.2.trans hyb.1.2.symm⟩

/-- Concrete instantiation of `c10_ajax_agrees_with_model`. -/
theorem c10_witness :
    check_resistance_ajax [{ patient := 1, antibiotic := 1, result := "resistant" }] 1 1 =
      some (is_patient_resistant [{ patient := 1, antibiotic := 1, result := "resistant" }] 1 1) :=
  c10_ajax_agrees_with_model [{ patient := 1, antibiotic := 1, result := "resistant" }] 1 1
    (by simp)

/-- The completed prescriptions of one antibiotic:
`prescription_set.filter(status='completed')` scoped to antibiotic `a`. -/
def completed_of (prescs : List PrescriptionRec) (a : Nat) : List PrescriptionRec :=
  prescs.filter fun p => p.antibiotic == a && p.status == "completed"

/-- The recovered count of `Antibiotic.get_effectiveness_rate` (models.py
lines 74-77): `prescription_set.filter(status='completed',
feedback__feedback='recovered').count()` — the SQL join counts one row per
(completed prescription, matching feedback row) pair. -/
def recovered_join_count (prescs : List PrescriptionRec) (fbs : List FeedbackRec) (a : Nat) : Nat :=
  ((completed_of prescs a).map fun p =>
    (fbs.filter fun f => f.prescription == p.id && f.feedback == "recovered").length).sum

/-- `Antibiotic.get_effectiveness_rate` (models.py lines 68-79): recovered
completed prescriptions over completed prescriptions, `0` when there are
none, `round(…, 1)`. -/
def get_effectiveness_rate (prescs : List PrescriptionRec) (fbs : List FeedbackRec) (a : Nat) : ℚ :=
  let total := (completed_of prescs a).length
  if total = 0 then 0
  else pyround1 ((recovered_join_count prescs fbs a : ℚ) / (total : ℚ) * 100)

/-- The per-antibiotic effectiveness rate of the `reports` view (views.py
lines 365-375): denominator = all prescriptions of the antibiotic
(`Prescription.objects.filter(antibiotic=…)`, no status filter), numerator =
all `"recovered"` feedback rows whose prescription has that antibiotic
(`Feedback.objects.filter(prescription__antibiotic=…, feedback='recovered')`,
no status filter). -/
def reports_effectiveness_rate (prescs : List PrescriptionRec) (fbs : List FeedbackRec) (a : Nat) : ℚ :=
  let total := (prescs.filter fun p => p.antibiotic == a).length
  let recovered := (fbs.filter fun f => f.feedback == "recovered" &&
    prescs.any fun p => p.id == f.prescription && p.antibiotic == a).length
  if total > 0 then pyround1 ((recovered : ℚ) / (total : ℚ) * 100) else 0

/-- The effectiveness-rate contract as the spec words it (§4.2): denominator
= count of the antibiotic's prescriptions with status completed, numerator =
the subset of those whose linked Feedback is `"recovered"`, 0 on a zero
denominator, rounded to one decimal place. -/
def effectiveness_rate_spec (prescs : List PrescriptionRec) (fbs : List FeedbackRec) (a : Nat) : ℚ :=
  let denom := (completed_of prescs a).length
  let numer := ((completed_of prescs a).filter fun p =>
    fbs.any fun f => f.prescription == p.id && f.feedback == "recovered").length
  if denom = 0 then 0 else pyround1 ((numer : ℚ) / (denom : ℚ) * 100)

/-- C2 counterexample: with one completed prescription of antibiotic 1
carrying `"recovered"` feedback and one further active prescription of the
same antibiotic, the contract value is 100 (1 recovered of 1 completed) but
the reports view shows 50 (1 recovered feedback over 2 prescriptions of any
status) — so not every code path uses the completed-prescription denominator. -/
theorem c2_counterexample :
    reports_effectiveness_rate
      [{ id := 1, patient := 1, antibiotic := 1, status := "completed" },
       { id := 2, patient := 1, antibiotic := 1, status := "active" }]
      [{ patient := 1, prescription := 1, feedback := "recovered" }] 1 = 50 ∧
    get_effectiveness_rate
      [{ id := 1, patient := 1, antibiotic := 1, status := "completed" },
       { id := 2, patient := 1, antibiotic := 1, status := "active" }]
      [{ patient := 1, prescription := 1, feedback := "recovered" }] 1 = 100 := by
  constructor
  · show (if 0 < 2 then pyround1 ((1 : ℚ) / (2 : ℚ) * 100) else 0) = 50
    rw [if_pos (by norm_num)]
    unfold pyround1 round_half_even
    norm_num
  · show (if 1 = 0 then 0 else pyround1 ((1 : ℚ) / (1 : ℚ) * 100)) = 100
    rw [if_neg (by norm_num)]
    unfold pyround1 round_half_even
    norm_num

/-- Under at most one feedback row per prescription, the join's per-
prescription row count is the indicator of a matching recovered feedback. -/
theorem filter_feedback_length_of_unique (fbs : List FeedbackRec) (pid : Nat)
    (h : fbs.Pairwise fun f1 f2 => f1.prescription ≠ f2.prescription) :
    (fbs.filter fun f => f.prescription == pid && f.feedback == "recovered").length =
      if (fbs.any fun f => f.prescription == pid && f.feedback == "recovered") then 1 else 0 := by
  induction fbs with
  | nil => simp
  | cons f fs ih =>
    have hf := (List.pairwise_cons.mp h).1
    have hfs := (List.pairwise_cons.mp h).2
    by_cases hc : (f.prescription == pid && f.feedback == "recovered") = true
    · have hnone : (fs.filter fun g => g.prescription == pid && g.feedback == "recovered") = [] := by
        rw [List.filter_eq_nil_iff]
        intro g hg hgc
        simp only [Bool.and_eq_true, beq_iff_eq] at hc hgc
        exact hf g hg (hc.1.trans hgc.1.symm)
      simp [List.filter_cons, List.any_cons, hc, hnone]
    · simp [List.filter_cons, List.any_cons, hc, ih hfs]

/-- Indicator sums count filtered elements. -/
theorem sum_indicator_eq_length_filter {α : Type} (l : List α) (g : α → Bool) :
    (l.map fun x => if g x then 1 else 0).sum = (l.filter g).length := by
  induction l with
  | nil => rfl
  | cons x xs ih =>
    by_cases hx : g x = true <;> simp [List.filter_cons, hx, ih, Nat.add_comm]

/-- C2 amended: `Antibiotic.get_effectiveness_rate` satisfies the contract —
completed-prescription denominator, recovered subset numerator, 0 on an
empty denominator, one decimal — on every store in which each prescription
has at most one feedback row (the practical reading of the Feedback
uniqueness constraint); the reports view, however, computes its rate over
all prescriptions and all recovered feedback regardless of status. -/
theorem c2_model_rate_meets_contract (prescs : List PrescriptionRec)
    (fbs : List FeedbackRec) (a : Nat)
    (h : fbs.Pairwise fun f1 f2 => f1.prescription ≠ f2.prescription) :
    get_effectiveness_rate prescs fbs a = effectiveness_rate_spec prescs fbs a := by
  unfold get_effectiveness_rate effectiveness_rate_spec
  have hjoin : recovered_join_count prescs fbs a =
      ((completed_of prescs a).filter fun p =>
        fbs.any fun f => f.prescription == p.id && f.feedback == "recovered").length := by
    unfold recovered_join_count
    rw [← sum_indicator_eq_length_filter]
    congr 1
    apply List.map_congr_left
    intro p _
    exact filter_feedback_length_of_unique fbs p.id h
  rw [hjoin]

/-- Concrete instantiation of `c2_model_rate_meets_contract`. -/
theorem c2_witness :
    get_effectiveness_rate
      [{ id := 1, patient := 1, antibiotic := 1, status := "completed" }]
      [{ patient := 1, prescription := 1, feedback := "recovered" }] 1 =
    effectiveness_rate_spec
      [{ id := 1, patient := 1, antibiotic := 1, status := "completed" }]
      [{ patient := 1, prescription := 1, feedback := "recovered" }] 1 :=
  c2_model_rate_meets_contract
    [{ id := 1, patient := 1, antibiotic := 1, status := "completed" }]
    [{ patient := 1, prescription := 1, feedback := "recovered" }] 1 (by simp)

end AMR
